import Mathlib

/-!
Verification of the screwdriver-cd coverage-sonar adapter.

The JavaScript source (src/index.js, plus a historical variant of the same
module) is shallowly embedded below.  JavaScript strings are `String`;
possibly-`undefined` string values are `Option String` where `none` models
`undefined`.  Template interpolation of a possibly-undefined value prints
the literal text `undefined`, as in JavaScript.
-/

/-- Interpolation of a possibly-undefined JS string value into a template
literal: `undefined` prints as the literal text `undefined`. -/
def jsStr : Option String → String
  | none => "undefined"
  | some s => s

/-- Truthiness of a possibly-undefined JS string value: `undefined` and the
empty string are falsy, every other string is truthy. -/
def jsTruthy : Option String → Bool
  | none => false
  | some s => s ≠ ""

/-- Boolean prefix test on character lists. -/
def isPrefixOfB : List Char → List Char → Bool
  | [], _ => true
  | _ :: _, [] => false
  | p :: ps, c :: cs => p = c && isPrefixOfB ps cs

/-- Substring occurrence test on character lists (the pattern occurs
somewhere in the text). -/
def containsSub (pat : List Char) : List Char → Bool
  | [] => isPrefixOfB pat []
  | c :: t => isPrefixOfB pat (c :: t) || containsSub pat t

/-- Embedding of `String.prototype.includes`. -/
def jsIncludes (s pat : String) : Bool := containsSub pat.data s.data

/-- Splitting a character list on a single separator character, as
`String.prototype.split` does: always returns at least one (possibly
empty) component. -/
def splitCharAux (sep : Char) : List Char → List (List Char)
  | [] => [[]]
  | c :: cs =>
    if c = sep then [] :: splitCharAux sep cs
    else
      match splitCharAux sep cs with
      | [] => [[c]]
      | h :: t => (c :: h) :: t

/-- Embedding of `String.prototype.split` with a one-character separator. -/
def jsSplit (sep : Char) (s : String) : List String :=
  (splitCharAux sep s.data).map (fun l => String.mk l)

/-- Digit character (regex `\d`). -/
def isDigitCh (c : Char) : Bool := ('0' ≤ c) && (c ≤ '9')

/-- Word character or hyphen (regex class `[\w-]`). -/
def isWordHyphen (c : Char) : Bool :=
  (('A' ≤ c) && (c ≤ 'Z')) || (('a' ≤ c) && (c ≤ 'z')) || isDigitCh c || (c = '_') || (c = '-')

/-- Embedding of `jobName.match(/^PR-(\d+)(?::([\w-]+))?$/)`.
Returns `none` when the whole string does not match; on a match it returns
the second capture group, which is itself absent (`none`) when the optional
`:<originalJobName>` part is missing.  (When the regex matches, the JS
match array always has length 3, so the source condition
`prNameMatch && prNameMatch.length > 1` is exactly "the regex matched".) -/
def matchPR (s : String) : Option (Option String) :=
  match s.data with
  | 'P' :: 'R' :: '-' :: rest =>
    let ds := rest.takeWhile isDigitCh
    let rest2 := rest.dropWhile isDigitCh
    if ds.isEmpty then none
    else
      match rest2 with
      | [] => some none
      | ':' :: tail =>
        if (!tail.isEmpty) && tail.all isWordHyphen then some (some (String.mk tail)) else none
      | _ => none
  | _ => none

/-- Build identity handed to the resolver (`getProjectData`): the Screwdriver
job/pipeline identification plus optional annotations.  Optional fields are
`Option String` (`none` = absent / `undefined`). -/
structure Identity where
  scope : Option String
  enterpriseEnabled : Bool
  jobId : String
  jobName : String
  pipelineId : Option String
  pipelineName : String
  projectKey : Option String
  prParentJobId : Option String
  prNum : Option String
deriving DecidableEq

/-- Sonar project descriptor returned by the resolver. -/
structure ProjectDescriptor where
  projectKey : String
  projectName : String
  username : String
  projectScope : String
deriving DecidableEq

/-- Embedding of the source line
`const userScope = scope && scope !== 'undefined' ? scope : undefined;`. -/
def userScope (c : Identity) : Option String :=
  match c.scope with
  | none => none
  | some s => if s ≠ "" ∧ s ≠ "undefined" then some s else none

/-- Embedding of
`const coverageScope = userScope || (enterpriseEnabled ? 'pipeline' : 'job');`. -/
def coverageScope (c : Identity) : String :=
  (userScope c).getD (if c.enterpriseEnabled then "pipeline" else "job")

/-- Embedding of `getProjectData` from src/index.js (lines 249-305).
Branches, in source order: explicit `projectKey` short-circuit; pipeline
scope; job scope with the PR substitution block
`if (prNum && coverageScope === 'job' && enterpriseEnabled)`, inside which
`jobId = prParentJobId` is assigned unconditionally and
`jobName = prNameMatch && prNameMatch.length > 1 ? prNameMatch[2] : jobName`. -/
def getProjectData (c : Identity) : ProjectDescriptor :=
  if jsTruthy c.projectKey then
    let pk := jsStr c.projectKey
    let parts := jsSplit ':' pk
    let projectScope := parts.headD "undefined"
    let id := parts[1]?
    let projectName :=
      if projectScope = "pipeline" then c.pipelineName else c.pipelineName ++ ":" ++ c.jobName
    { projectKey := pk
      username := "user-" ++ projectScope ++ "-" ++ jsStr id
      projectName := projectName
      projectScope := projectScope }
  else if coverageScope c = "pipeline" then
    { projectKey := "pipeline:" ++ jsStr c.pipelineId
      projectName := c.pipelineName
      username := "user-pipeline-" ++ jsStr c.pipelineId
      projectScope := coverageScope c }
  else
    let subst := jsTruthy c.prNum && (coverageScope c = "job") && c.enterpriseEnabled
    let jobId := if subst then jsStr c.prParentJobId else c.jobId
    let jobName :=
      if subst then
        match matchPR c.jobName with
        | some g2 => jsStr g2
        | none => c.jobName
      else c.jobName
    { projectKey := "job:" ++ jobId
      projectName := c.pipelineName ++ ":" ++ jobName
      username := "user-job-" ++ jobId
      projectScope := coverageScope c }

/-- Embedding of the `getProjectData` method of the historical variant in
src/unnamed/part_000 (lines 281-348).  It does not read `prNum`; in the
job-scope enterprise branch it performs the substitution only when the PR
regex matches (`if (prNameMatch && prNameMatch.length > 1)`).  The variant
additionally returns a `projectUrl` field, which no claim mentions and
which is omitted here. -/
def getProjectDataV (c : Identity) : ProjectDescriptor :=
  if jsTruthy c.projectKey then
    let pk := jsStr c.projectKey
    let parts := jsSplit ':' pk
    let projectScope := parts.headD "undefined"
    let id := parts[1]?
    let projectName :=
      if projectScope = "pipeline" then c.pipelineName else c.pipelineName ++ ":" ++ c.jobName
    { projectKey := pk
      username := "user-" ++ projectScope ++ "-" ++ jsStr id
      projectName := projectName
      projectScope := projectScope }
  else if coverageScope c = "pipeline" then
    { projectKey := "pipeline:" ++ jsStr c.pipelineId
      projectName := c.pipelineName
      username := "user-pipeline-" ++ jsStr c.pipelineId
      projectScope := coverageScope c }
  else
    let m :=
      if (coverageScope c = "job") && c.enterpriseEnabled then matchPR c.jobName else none
    let jobId := match m with | some _ => jsStr c.prParentJobId | none => c.jobId
    let jobName := match m with | some g2 => jsStr g2 | none => c.jobName
    { projectKey := "job:" ++ jobId
      projectName := c.pipelineName ++ ":" ++ jobName
      username := "user-job-" ++ jobId
      projectScope := coverageScope c }

example :
    getProjectData
      { scope := none, enterpriseEnabled := false, jobId := "1", jobName := "main",
        pipelineId := none, pipelineName := "d2lam/mytest", projectKey := none,
        prParentJobId := none, prNum := none } =
      { projectKey := "job:1", projectName := "d2lam/mytest:main",
        username := "user-job-1", projectScope := "job" } := by decide

example :
    getProjectData
      { scope := some "job", enterpriseEnabled := true, jobId := "1", jobName := "main",
        pipelineId := some "123", pipelineName := "d2lam/mytest", projectKey := none,
        prParentJobId := some "456", prNum := some "56" } =
      { projectKey := "job:456", projectName := "d2lam/mytest:main",
        username := "user-job-456", projectScope := "job" } := by decide

example : matchPR "PR-15" = some none := by decide
example : matchPR "PR-15:main" = some (some "main") := by decide
example : matchPR "main" = none := by decide
example : matchPR "PR-:a" = none := by decide
example : matchPR "PR-1:" = none := by decide

/-- Apostrophe character, as it appears in the source regex
`/Component key '.*' not found/` and in error messages. -/
def quoteCh : Char := Char.ofNat 39

/-- One-character apostrophe string. -/
def quoteStr : String := String.mk [quoteCh]

/-- Error object with which the embedded remote-call client rejects:
an HTTP status code and a message. -/
structure RemoteError where
  statusCode : Nat
  message : String
deriving DecidableEq

/-- Embedding of the `catch` handler of `createProject` (src/index.js lines
37-43): a 400 whose message contains `already exists` resolves to an empty
object (modelled as `Except.ok ()`); any other error is rethrown with the
step-specific message. -/
def createProjectCatch (projectKey : String) (err : RemoteError) : Except String Unit :=
  if err.statusCode == 400 && jsIncludes err.message ("already exists") then
    Except.ok ()
  else
    Except.error ("Failed to create project " ++ projectKey ++ ": " ++ err.message)

/-- Embedding of the `catch` handler of `createUser` (src/index.js lines
61-67), identical to `createProjectCatch` except for the message. -/
def createUserCatch (username : String) (err : RemoteError) : Except String Unit :=
  if err.statusCode == 400 && jsIncludes err.message ("already exists") then
    Except.ok ()
  else
    Except.error ("Failed to create user " ++ username ++ ": " ++ err.message)

/-- Line terminator characters, which `.` in a JS regex does not match. -/
def isLineTerm (c : Char) : Bool :=
  c = Char.ofNat 10 || c = Char.ofNat 13 || c = Char.ofNat 0x2028 || c = Char.ofNat 0x2029

/-- Literal before the wildcard in `/Component key '.*' not found/`. -/
def ckOpenLit : List Char := ("Component key ").data ++ [quoteCh]

/-- Literal after the wildcard in `/Component key '.*' not found/`. -/
def ckCloseLit : List Char := quoteCh :: (" not found").data

/-- Scans forward for an occurrence of `ckCloseLit`, allowing only
non-line-terminator characters (what `.` matches) before it. -/
def ckFindClose : List Char → Bool
  | [] => false
  | c :: t =>
    if isPrefixOfB ckCloseLit (c :: t) then true
    else if isLineTerm c then false
    else ckFindClose t

/-- Tests `/Component key '.*' not found/` at one starting position. -/
def ckTestAt (l : List Char) : Bool :=
  isPrefixOfB ckOpenLit l && ckFindClose (l.drop ckOpenLit.length)

/-- Tests `/Component key '.*' not found/` at every starting position. -/
def ckTestGo : List Char → Bool
  | [] => false
  | c :: t => ckTestAt (c :: t) || ckTestGo t

/-- Embedding of `/Component key '.*' not found/.test(message)` (unanchored
regex test; `.` matches everything except line terminators, and `.*` is
witnessed by any occurrence of the closing literal reachable without
crossing a line terminator). -/
def testComponentKeyNotFound (msg : String) : Bool := ckTestGo msg.data

/-- Result object of `getMetrics`. -/
structure MetricsResult where
  coverage : String
  tests : String
deriving DecidableEq

/-- Embedding of the `catch` handler of `getMetrics` (src/index.js lines
216-229).  Returns the resolved metrics together with the list of messages
passed to `logger.error`: a 404 matching the component-key pattern logs
nothing, every other error logs exactly one message; either way the
handler resolves to the N/A metrics (it never rethrows). -/
def getMetricsCatch (projectKey : String) (err : RemoteError) : MetricsResult × List String :=
  let logs :=
    if err.statusCode != 404 || !testComponentKeyNotFound err.message then
      ["Failed to get coverage and tests percentage for Sonar project " ++ projectKey ++ ": " ++
        err.message]
    else []
  ({ tests := "N/A", coverage := "N/A" }, logs)

/-- JavaScript whitespace (WhiteSpace and LineTerminator productions), as
trimmed by `Number(...)` and `parseInt`. -/
def isJsWhite (c : Char) : Bool :=
  c = Char.ofNat 9 || c = Char.ofNat 10 || c = Char.ofNat 11 || c = Char.ofNat 12 ||
  c = Char.ofNat 13 || c = ' ' || c = Char.ofNat 0xA0 || c = Char.ofNat 0x1680 ||
  (Char.ofNat 0x2000 ≤ c && c ≤ Char.ofNat 0x200A) || c = Char.ofNat 0x2028 ||
  c = Char.ofNat 0x2029 || c = Char.ofNat 0x202F || c = Char.ofNat 0x205F ||
  c = Char.ofNat 0x3000 || c = Char.ofNat 0xFEFF

/-- Hexadecimal digit. -/
def isHexDigitCh (c : Char) : Bool :=
  isDigitCh c || (('a' ≤ c) && (c ≤ 'f')) || (('A' ≤ c) && (c ≤ 'F'))

/-- Octal digit. -/
def isOctDigitCh (c : Char) : Bool := ('0' ≤ c) && (c ≤ '7')

/-- Binary digit. -/
def isBinDigitCh (c : Char) : Bool := c = '0' || c = '1'

/-- Validity of an optional ExponentPart ending a decimal literal. -/
def chkExp : List Char → Bool
  | [] => true
  | c :: r =>
    if c = 'e' || c = 'E' then
      let r2 := match r with
        | '+' :: t => t
        | '-' :: t => t
        | t => t
      (!r2.isEmpty) && r2.all isDigitCh
    else false

/-- Validity of StrUnsignedDecimalLiteral: `Infinity`, `digits[.digits][exp]`
or `.digits[exp]`. -/
def chkUnsignedDec (l : List Char) : Bool :=
  if l = ("Infinity").data then true
  else
    let ip := l.takeWhile isDigitCh
    let r := l.dropWhile isDigitCh
    if !ip.isEmpty then
      match r with
      | '.' :: r2 => chkExp (r2.dropWhile isDigitCh)
      | _ => chkExp r
    else
      match r with
      | '.' :: r2 => (!(r2.takeWhile isDigitCh).isEmpty) && chkExp (r2.dropWhile isDigitCh)
      | _ => false

/-- Validity of StrDecimalLiteral (optional sign, then unsigned). -/
def chkSignedDec : List Char → Bool
  | '+' :: r => chkUnsignedDec r
  | '-' :: r => chkUnsignedDec r
  | l => chkUnsignedDec l

/-- Validity of StrNumericLiteral: non-decimal `0x`/`0o`/`0b` forms (no
sign allowed) or a signed decimal literal. -/
def chkNumericLiteral (l : List Char) : Bool :=
  match l with
  | '0' :: x :: rest =>
    if x = 'x' || x = 'X' then (!rest.isEmpty) && rest.all isHexDigitCh
    else if x = 'o' || x = 'O' then (!rest.isEmpty) && rest.all isOctDigitCh
    else if x = 'b' || x = 'B' then (!rest.isEmpty) && rest.all isBinDigitCh
    else chkSignedDec ('0' :: x :: rest)
  | l => chkSignedDec l

/-- Whitespace-trimming on both ends, as `Number(...)` performs. -/
def jsTrim (l : List Char) : List Char :=
  ((l.dropWhile isJsWhite).reverse.dropWhile isJsWhite).reverse

/-- Embedding of `Number.isNaN(Number(s))` for a string argument: the empty
or all-whitespace string converts to 0 (not NaN); otherwise the trimmed
string must be a valid StrNumericLiteral. -/
def jsNumberIsNaN (s : String) : Bool :=
  let t := jsTrim s.data
  if t.isEmpty then false else !chkNumericLiteral t

/-- Value of a nonempty decimal digit sequence. -/
def digitsVal (l : List Char) : Nat :=
  l.foldl (fun a c => a * 10 + (c.toNat - 48)) 0

/-- Embedding of `parseInt(s, 10)`: skip leading whitespace, optional sign,
then the longest prefix of decimal digits; `none` models the NaN result
when no digit is found.  (Float rounding of astronomically long digit
strings is not modelled; values here are exact integers.) -/
def jsParseInt10 (s : String) : Option Int :=
  let l := s.data.dropWhile isJsWhite
  let sgn : Int := match l with
    | '-' :: _ => -1
    | _ => 1
  let l2 := match l with
    | '+' :: r => r
    | '-' :: r => r
    | r => r
  let ds := l2.takeWhile isDigitCh
  if ds.isEmpty then none else some (sgn * (digitsVal ds : Int))

/-- JS subtraction where either operand may be NaN (NaN propagates). -/
def jsSub : Option Int → Option Int → Option Int
  | some a, some b => some (a - b)
  | _, _ => none

/-- Template interpolation of a JS number that may be NaN. -/
def jsNumToString : Option Int → String
  | none => "NaN"
  | some n => toString n

/-- One element of the `measures` array of the search-history response:
the metric name and, for each history entry, its optional `value` field
(the query uses page size 1, so at most one entry is ever present). -/
structure Measure where
  metric : String
  history : List (Option String)
deriving DecidableEq

/-- Embedding of the `forEach` loop that converts the measures array to an
object keyed by metric name (`measures[measure.metric] = measure`): a later
array element overwrites an earlier one with the same name. -/
def indexMeasures (ms : List Measure) : String → Option Measure :=
  ms.foldl (fun acc m => fun k => if k = m.metric then some m else acc k) (fun _ => none)

/-- Embedding of `hoek.reach(measures, k ++ '.history.0.value')`: `none`
models `undefined` at any missing step of the path. -/
def reachVal (ms : List Measure) (k : String) : Option String :=
  match indexMeasures ms k with
  | none => none
  | some m =>
    match m.history.head? with
    | none => none
    | some v => v

/-- Embedding of the success handler of `getMetrics` (src/index.js lines
190-215).  The input is the optional `measures` field of the response body
(`hoek.reach(result, 'measures') || []`).  The `hoek.reach` default
`{ default: 0 }` for `test_errors`/`test_failures` yields the JS number 0,
which `parseInt` receives as the string `0`. -/
def getMetricsOnSuccess (result : Option (List Measure)) : MetricsResult :=
  let ms := result.getD []
  let coverage :=
    match reachVal ms ("coverage") with
    | none => "N/A"
    | some v => if v = "" then "N/A" else v
  let total := (reachVal ms ("tests")).getD ("N/A")
  let testErrors := (reachVal ms ("test_errors")).getD ("0")
  let testFailures := (reachVal ms ("test_failures")).getD ("0")
  if !jsNumberIsNaN total then
    let totalInt := jsParseInt10 total
    let pass := jsSub (jsSub totalInt (jsParseInt10 testErrors)) (jsParseInt10 testFailures)
    { coverage := coverage, tests := jsNumToString pass ++ "/" ++ jsNumToString totalInt }
  else
    { coverage := coverage, tests := "N/A" }

/-- Arguments of `_getAccessToken` (src/index.js lines 375-400): optional
caller-supplied scope/username/projectKey/projectName, the job identity
taken from `buildCredentials`, and names. -/
structure TokenArgs where
  scope : Option String
  username : Option String
  projectKey : Option String
  projectName : Option String
  jobName : String
  pipelineName : String
  jobId : String
  pipelineId : Option String
  prParentJobId : Option String
deriving DecidableEq

/-- Identity with which `_getAccessToken` calls `getProjectData` when it
recomputes: the supplied `projectKey` is forwarded and no `prNum` is
passed. -/
def accessTokenIdentity (enterprise : Bool) (a : TokenArgs) : Identity :=
  { scope := a.scope
    enterpriseEnabled := enterprise
    jobId := a.jobId
    jobName := a.jobName
    pipelineId := a.pipelineId
    pipelineName := a.pipelineName
    projectKey := a.projectKey
    prParentJobId := a.prParentJobId
    prNum := none }

/-- Project data consumed by the provisioning chain. -/
structure ProjectData where
  username : String
  projectKey : String
  projectName : String
deriving DecidableEq

/-- Embedding of the project-data selection at the top of `_getAccessToken`:
`if (!username || !projectKey || !projectName || projectName.includes('undefined'))`
the data is recomputed by `getProjectData`, otherwise the caller-supplied
trio is used as-is. -/
def getAccessTokenProjectData (enterprise : Bool) (a : TokenArgs) : ProjectData :=
  if (!jsTruthy a.username) || (!jsTruthy a.projectKey) || (!jsTruthy a.projectName) ||
      jsIncludes (jsStr a.projectName) ("undefined") then
    let d := getProjectData (accessTokenIdentity enterprise a)
    { username := d.username, projectKey := d.projectKey, projectName := d.projectName }
  else
    { username := jsStr a.username, projectKey := jsStr a.projectKey,
      projectName := jsStr a.projectName }

/-- Embedding of `String.prototype.replace` with a plain-string pattern:
only the first occurrence is replaced.  (Dollar-escape sequences in the
replacement are not modelled; they do not occur in the configuration
values substituted here.) -/
def jsReplaceFirst (s pat rep : String) : String :=
  match s.splitOn pat with
  | [] => s
  | [_] => s
  | h :: t => h ++ rep ++ String.intercalate pat t

/-- Embedding of the constructor substitutions on the command template
(src/index.js lines 353-355): host, UI URL and enterprise flag. -/
def substituteCommands (commands sonarHost sdUiUrl : String) (sonarEnterprise : Bool) : String :=
  jsReplaceFirst
    (jsReplaceFirst (jsReplaceFirst commands ("$SD_SONAR_HOST") sonarHost) ("$SD_UI_URL") sdUiUrl)
    ("$SD_SONAR_ENTERPRISE") (if sonarEnterprise then "true" else "false")

/-- In-place update of the last element of a list, as
`arr[arr.length - 1] += ' || true'` does. -/
def modifyLast (f : String → String) : List String → List String
  | [] => []
  | [x] => [f x]
  | x :: y :: t => x :: modifyLast f (y :: t)

/-- Embedding of `this.uploadCommands` (src/index.js lines 353-358): the
substituted template split on newlines, with `|| true` appended to the
last line. -/
def mkUploadCommands (commands : String) : List String :=
  modifyLast (fun s => s ++ (" || true")) (jsSplit (Char.ofNat 10) commands)

/-- Embedding of `_getUploadCoverageCmd` (src/index.js lines 484-486). -/
def getUploadCoverageCmd (commands : String) : String :=
  String.intercalate (" && ") (mkUploadCommands commands)

example : testComponentKeyNotFound ("Component key " ++ quoteStr ++ "job:1" ++ quoteStr ++ " not found") = true := by decide
example : testComponentKeyNotFound ("Not Found") = false := by decide
example : jsNumberIsNaN ("10") = false := by decide
example : jsNumberIsNaN ("N/A") = true := by decide
example : jsNumberIsNaN ("") = false := by decide
example : jsParseInt10 ("10") = some 10 := by decide
example : jsParseInt10 ("") = none := by decide
example :
    getMetricsOnSuccess (some
      [ { metric := "tests", history := [some "10"] },
        { metric := "test_errors", history := [some "2"] },
        { metric := "test_failures", history := [some "1"] },
        { metric := "coverage", history := [some "98.8"] } ]) =
      { coverage := "98.8", tests := "7/10" } := by decide

/-- Splitting never yields the empty list. -/
theorem splitCharAux_ne_nil (sep : Char) (l : List Char) : splitCharAux sep l ≠ [] := by
  induction l with
  | nil => simp [splitCharAux]
  | cons c cs ih =>
    simp only [splitCharAux]
    split
    · simp
    · split
      · simp
      · simp

/-- The string-level split never yields the empty list. -/
theorem jsSplit_ne_nil (sep : Char) (s : String) : jsSplit sep s ≠ [] := by
  simp [jsSplit, splitCharAux_ne_nil]

/-- Splitting a list that starts with a separator-free prefix followed by
the separator detaches that prefix as the first component. -/
theorem splitCharAux_append_sep (sep : Char) (pre rest : List Char)
    (h : ∀ c ∈ pre, c ≠ sep) :
    splitCharAux sep (pre ++ sep :: rest) = pre :: splitCharAux sep rest := by
  induction pre with
  | nil => simp [splitCharAux]
  | cons c cs ih =>
    have hc : c ≠ sep := h c (List.mem_cons_self c cs)
    have ih2 := ih (fun x hx => h x (List.mem_cons_of_mem c hx))
    simp only [List.cons_append, splitCharAux, if_neg hc, List.append_eq, ih2]

/-- First component of splitting a job-scoped key. -/
theorem jsSplit_job_head (s : String) (d : String) :
    (jsSplit ':' ("job:" ++ s)).headD d = "job" := by
  have hdata : ("job:" ++ s).data = ['j', 'o', 'b'] ++ ':' :: s.data := rfl
  simp only [jsSplit, hdata, splitCharAux_append_sep ':' ['j', 'o', 'b'] s.data (by decide),
    List.map_cons, List.headD_cons]

/-- First component of splitting a pipeline-scoped key. -/
theorem jsSplit_pipeline_head (s : String) (d : String) :
    (jsSplit ':' ("pipeline:" ++ s)).headD d = "pipeline" := by
  have hdata : ("pipeline:" ++ s).data =
      ['p', 'i', 'p', 'e', 'l', 'i', 'n', 'e'] ++ ':' :: s.data := rfl
  simp only [jsSplit, hdata,
    splitCharAux_append_sep ':' ['p', 'i', 'p', 'e', 'l', 'i', 'n', 'e'] s.data (by decide),
    List.map_cons, List.headD_cons]

/-- On a nonempty list `headD` does not depend on the default. -/
theorem headD_ne_nil {α : Type} (l : List α) (d d2 : α) (h : l ≠ []) :
    l.headD d = l.headD d2 := by
  cases l with
  | nil => exact absurd rfl h
  | cons x t => rfl

/-- Specification-level lookup: the last element of the measures array
carrying the given metric name. -/
def lastFind (k : String) : List Measure → Option Measure
  | [] => none
  | m :: t =>
    match lastFind k t with
    | some r => some r
    | none => if m.metric = k then some m else none

/-- The object built by the `forEach` loop holds, for each metric name, the
last array element with that name. -/
theorem foldl_index_eq (ms : List Measure) (acc : String → Option Measure) (k : String) :
    ms.foldl (fun acc m => fun j => if j = m.metric then some m else acc j) acc k =
      (match lastFind k ms with
       | some r => some r
       | none => acc k) := by
  induction ms generalizing acc with
  | nil => simp [lastFind]
  | cons m t ih =>
    simp only [List.foldl_cons, lastFind]
    rw [ih]
    cases h : lastFind k t with
    | some r => simp
    | none =>
      by_cases hk : m.metric = k
      · simp [hk]
      · have hk2 : ¬(k = m.metric) := fun he => hk he.symm
        simp [hk, hk2]

/-- `indexMeasures` agrees with the last-occurrence lookup. -/
theorem indexMeasures_eq (ms : List Measure) (k : String) :
    indexMeasures ms k = lastFind k ms := by
  unfold indexMeasures
  rw [foldl_index_eq]
  cases lastFind k ms <;> rfl

/-- Specification-level form of the `hoek.reach` path
`<metric>.history.0.value`: the optional value of the first history entry
of the last measure named `k`. -/
def latestValue (k : String) (ms : List Measure) : Option String :=
  match lastFind k ms with
  | none => none
  | some m =>
    match m.history.head? with
    | none => none
    | some v => v

/-- `reachVal` agrees with the specification-level lookup. -/
theorem reachVal_eq (ms : List Measure) (k : String) :
    reachVal ms k = latestValue k ms := by
  unfold reachVal latestValue
  rw [indexMeasures_eq]

/-- `modifyLast` keeps every line but the last unchanged and in place, and
appends the suffix exactly to the last line. -/
theorem modifyLast_eq (f : String → String) (l : List String) :
    modifyLast f l = l.dropLast ++ ((l.getLast?).map f).toList := by
  induction l with
  | nil => rfl
  | cons x t ih =>
    cases t with
    | nil => rfl
    | cons y r =>
      simp only [modifyLast, ih, List.getLast?_cons_cons, List.dropLast_cons₂,
        List.cons_append]

/-- Occurrence of a pattern in the right part of an append is an occurrence
in the whole list. -/
theorem containsSub_append_right (pat a b : List Char) (h : containsSub pat b = true) :
    containsSub pat (a ++ b) = true := by
  induction a with
  | nil => simpa using h
  | cons c t ih => simp [containsSub, ih]

/-- Claim C4: for every remote-call error, `createProject` resolves to the
empty result exactly when the error is a 400 whose message contains
`already exists`, and otherwise rethrows `Failed to create project
<projectKey>: <original message>`; `createUser` behaves identically with
`Failed to create user <username>: <original message>`. -/
theorem create_idempotent_conflict (pk un : String) (err : RemoteError) :
    (createProjectCatch pk err = Except.ok () ↔
      err.statusCode = 400 ∧ jsIncludes err.message ("already exists") = true) ∧
    (createProjectCatch pk err = Except.ok () ∨
      createProjectCatch pk err =
        Except.error ("Failed to create project " ++ pk ++ ": " ++ err.message)) ∧
    (createUserCatch un err = Except.ok () ↔
      err.statusCode = 400 ∧ jsIncludes err.message ("already exists") = true) ∧
    (createUserCatch un err = Except.ok () ∨
      createUserCatch un err =
        Except.error ("Failed to create user " ++ un ++ ": " ++ err.message)) := by
  by_cases h : (err.statusCode == 400 && jsIncludes err.message ("already exists")) = true
  · have h2 : err.statusCode = 400 ∧ jsIncludes err.message ("already exists") = true := by
      simpa [Bool.and_eq_true, beq_iff_eq] using h
    simp [createProjectCatch, createUserCatch, h, h2]
  · have h2 : ¬(err.statusCode = 400 ∧ jsIncludes err.message ("already exists") = true) := by
      simpa [Bool.and_eq_true, beq_iff_eq] using h
    simp [createProjectCatch, createUserCatch, h, h2]

/-- Claim C5: `getMetrics` never rejects: every error resolves to the N/A
metrics; nothing is logged exactly when the error is a 404 whose message
matches `Component key <anything> not found` (with the component key in
single quotes), and exactly one error message is logged in every other
case.  The last two conjuncts are the spec scenarios: a 404 with the
matching message logs nothing, a 404 with message `Not Found` logs once. -/
theorem metrics_failure_degrades (pk : String) (err : RemoteError) :
    (getMetricsCatch pk err).1 = { coverage := "N/A", tests := "N/A" } ∧
    ((getMetricsCatch pk err).2.length = 0 ↔
      err.statusCode = 404 ∧ testComponentKeyNotFound err.message = true) ∧
    ((getMetricsCatch pk err).2.length = 0 ∨ (getMetricsCatch pk err).2.length = 1) ∧
    (getMetricsCatch pk
        { statusCode := 404,
          message :=
            "Component key " ++ quoteStr ++ "job:1" ++ quoteStr ++ " not found" }).2.length = 0 ∧
    (getMetricsCatch pk { statusCode := 404, message := "Not Found" }).2.length = 1 := by
  have hmatch :
      testComponentKeyNotFound
        ("Component key " ++ quoteStr ++ "job:1" ++ quoteStr ++ " not found") = true := by decide
  have hnomatch : testComponentKeyNotFound ("Not Found") = false := by decide
  by_cases h : (err.statusCode != 404 || !testComponentKeyNotFound err.message) = true
  · have h2 : ¬(err.statusCode = 404 ∧ testComponentKeyNotFound err.message = true) := by
      rcases (by simpa [bne_iff_ne] using h : err.statusCode ≠ 404 ∨
          testComponentKeyNotFound err.message = false) with h3 | h3
      · exact fun hc => h3 hc.1
      · exact fun hc => by rw [hc.2] at h3; exact Bool.noConfusion h3
    simp [getMetricsCatch, h, h2, hmatch, hnomatch]
  · have h2 : err.statusCode = 404 ∧ testComponentKeyNotFound err.message = true := by
      rcases eq_or_ne err.statusCode 404 with h3 | h3
      · refine ⟨h3, ?_⟩
        cases h4 : testComponentKeyNotFound err.message
        · exact absurd (by simp [bne_iff_ne, h4]) h
        · rfl
      · exact absurd (by simp [bne_iff_ne, h3]) h
    simp [getMetricsCatch, h, h2, hmatch, hnomatch]

/-- Claim C6: on a successful measures response, `coverage` is the most
recent (first, with page size 1) history value of the last measure named
`coverage` — or `N/A` when that value is absent or falsy — and `tests` is
`<pass>/<total>` computed by `parseInt` with pass = total - errors -
failures (errors and failures defaulting to 0 when absent) whenever the
latest `tests` value passes the `Number.isNaN` check, and `N/A` otherwise.
The last conjunct is the spec scenario: tests 10, errors 2, failures 1
formats as `7/10`. -/
theorem metrics_success_spec (ms : List Measure) :
    (getMetricsOnSuccess (some ms)).coverage =
      (match latestValue ("coverage") ms with
       | none => "N/A"
       | some v => if v = "" then "N/A" else v) ∧
    (getMetricsOnSuccess (some ms)).tests =
      (if jsNumberIsNaN ((latestValue ("tests") ms).getD ("N/A")) then "N/A"
       else
         jsNumToString
             (jsSub
               (jsSub (jsParseInt10 ((latestValue ("tests") ms).getD ("N/A")))
                 (jsParseInt10 ((latestValue ("test_errors") ms).getD ("0"))))
               (jsParseInt10 ((latestValue ("test_failures") ms).getD ("0")))) ++ "/" ++
           jsNumToString (jsParseInt10 ((latestValue ("tests") ms).getD ("N/A")))) ∧
    getMetricsOnSuccess (some
        [ { metric := "tests", history := [some "10"] },
          { metric := "test_errors", history := [some "2"] },
          { metric := "test_failures", history := [some "1"] } ]) =
      { coverage := "N/A", tests := "7/10" } := by
  have e1 := reachVal_eq ms ("coverage")
  have e2 := reachVal_eq ms ("tests")
  have e3 := reachVal_eq ms ("test_errors")
  have e4 := reachVal_eq ms ("test_failures")
  refine ⟨?_, ?_, by decide⟩ <;>
    cases hb : jsNumberIsNaN ((latestValue ("tests") ms).getD ("N/A")) <;>
      simp [getMetricsOnSuccess, e1, e2, e3, e4, hb]

/-- Claim C8: for every configuration, the upload command resolved by
`getUploadCoverageCmd` is the (substituted) template lines joined with
` && ` in their original order, where the final line — and only that
line — carries the ` || true` suffix. -/
theorem upload_cmd_structure (commands sonarHost sdUiUrl : String) (ent : Bool) :
    mkUploadCommands (substituteCommands commands sonarHost sdUiUrl ent) =
      (jsSplit (Char.ofNat 10) (substituteCommands commands sonarHost sdUiUrl ent)).dropLast ++
        (((jsSplit (Char.ofNat 10) (substituteCommands commands sonarHost sdUiUrl ent)).getLast?).map
          (fun x => x ++ (" || true"))).toList ∧
    jsSplit (Char.ofNat 10) (substituteCommands commands sonarHost sdUiUrl ent) ≠ [] ∧
    getUploadCoverageCmd (substituteCommands commands sonarHost sdUiUrl ent) =
      String.intercalate (" && ")
        (mkUploadCommands (substituteCommands commands sonarHost sdUiUrl ent)) := by
  refine ⟨?_, jsSplit_ne_nil _ _, rfl⟩
  unfold mkUploadCommands
  exact modifyLast_eq _ _

/-- Claim C7: with no explicit projectKey and no usable scope annotation
(absent or the literal `undefined`), the resolver defaults to job scope
when enterprise mode is disabled and to pipeline scope when it is enabled;
the second conjunct is the spec scenario descriptor for jobId 1, jobName
`main`, pipelineName `d2lam/mytest`, non-enterprise. -/
theorem default_scope_resolution :
    (∀ c : Identity, c.projectKey = none →
      (c.scope = none ∨ c.scope = some "undefined") →
      (getProjectData c).projectScope =
        (if c.enterpriseEnabled then "pipeline" else "job")) ∧
    getProjectData
        { scope := none, enterpriseEnabled := false, jobId := "1", jobName := "main",
          pipelineId := none, pipelineName := "d2lam/mytest", projectKey := none,
          prParentJobId := none, prNum := none } =
      { projectKey := "job:1", projectName := "d2lam/mytest:main", username := "user-job-1",
        projectScope := "job" } := by
  refine ⟨?_, by decide⟩
  intro c hpk hs
  have husc : userScope c = none := by
    rcases hs with h | h <;> simp [userScope, h]
  have hcs : coverageScope c = (if c.enterpriseEnabled then "pipeline" else "job") := by
    simp [coverageScope, husc]
  have hscope : (getProjectData c).projectScope = coverageScope c := by
    by_cases hp2 : coverageScope c = "pipeline" <;>
      simp [getProjectData, hpk, jsTruthy, hp2]
  rw [hscope, hcs]

theorem default_scope_resolution_witness :
    (getProjectData
        { scope := some "undefined", enterpriseEnabled := true, jobId := "1",
          jobName := "main", pipelineId := some "123", pipelineName := "p",
          projectKey := none, prParentJobId := none, prNum := none }).projectScope =
      "pipeline" :=
  default_scope_resolution.1 _ rfl (Or.inr rfl)

/-- Claim C10: with enterprise mode on, job scope, a PR number present and
a jobName matching the PR pattern with no `:<originalJobName>` suffix
(for example `PR-15`), the absent capture group becomes `undefined`, so the
returned projectName is `<pipelineName>:undefined` and contains the
literal substring `undefined` even though both names were supplied. -/
theorem pr_without_name_undefined (c : Identity)
    (hpk : jsTruthy c.projectKey = false) (hcs : coverageScope c = "job")
    (hent : c.enterpriseEnabled = true) (hpr : jsTruthy c.prNum = true)
    (hm : matchPR c.jobName = some none) :
    (getProjectData c).projectName = c.pipelineName ++ ":undefined" ∧
    jsIncludes (getProjectData c).projectName ("undefined") = true := by
  have hname : (getProjectData c).projectName = c.pipelineName ++ ":undefined" := by
    have : (getProjectData c).projectName = c.pipelineName ++ ":" ++ jsStr none := by
      simp [getProjectData, hpk, hcs, hent, hpr, hm]
    rw [this]
    have hlit : (":" : String) ++ jsStr none = ":undefined" := by decide
    rw [String.append_assoc, hlit]
  refine ⟨hname, ?_⟩
  rw [hname]
  unfold jsIncludes
  have hdata : (c.pipelineName ++ ":undefined").data =
      c.pipelineName.data ++ (":undefined" : String).data := String.data_append _ _
  rw [hdata]
  exact containsSub_append_right _ _ _ (by decide)

theorem pr_without_name_undefined_witness :
    (getProjectData
        { scope := some "job", enterpriseEnabled := true, jobId := "1",
          jobName := "PR-15", pipelineId := some "123", pipelineName := "d2lam/mytest",
          projectKey := none, prParentJobId := some "456", prNum := some "15" }).projectName =
      "d2lam/mytest" ++ ":undefined" ∧
    jsIncludes
      (getProjectData
        { scope := some "job", enterpriseEnabled := true, jobId := "1",
          jobName := "PR-15", pipelineId := some "123", pipelineName := "d2lam/mytest",
          projectKey := none, prParentJobId := some "456", prNum := some "15" }).projectName
      ("undefined") = true :=
  pr_without_name_undefined _ (by decide) (by decide) (by decide) (by decide) (by decide)

/-- Claim C1 counterexample: enterprise job-scope identity with a PR number
but a jobName (`main`) that does not match the PR pattern.  The claim says
the returned projectKey is `job:<original jobId>` = `job:1`, but the code
substitutes `jobId := prParentJobId` unconditionally inside the PR block
and returns `job:456`. -/
theorem pr_parent_redirection_cex :
    (getProjectData
        { scope := some "job", enterpriseEnabled := true, jobId := "1",
          jobName := "main", pipelineId := some "123", pipelineName := "d2lam/mytest",
          projectKey := none, prParentJobId := some "456", prNum := some "56" }).projectKey =
      "job:456" ∧
    (getProjectData
        { scope := some "job", enterpriseEnabled := true, jobId := "1",
          jobName := "main", pipelineId := some "123", pipelineName := "d2lam/mytest",
          projectKey := none, prParentJobId := some "456", prNum := some "56" }).projectKey ≠
      "job:1" := by
  decide

/-- Claim C1 (amended): for identities resolved to job scope with
enterprise mode enabled, the code substitutes `jobId := prParentJobId`
whenever a PR number is present — regardless of whether jobName matches
`PR-<number>(:<originalJobName>)?` — while `jobName := <originalJobName>`
is substituted exactly when the pattern matches; when the pattern does not
match, the projectKey is `job:<prParentJobId>` (not `job:<original jobId>`)
and the projectName keeps the original jobName.  With no PR number nothing
is substituted. -/
theorem pr_parent_redirection (c : Identity)
    (hpk : jsTruthy c.projectKey = false) (hcs : coverageScope c = "job")
    (hent : c.enterpriseEnabled = true) :
    (jsTruthy c.prNum = true → matchPR c.jobName = none →
      getProjectData c =
        { projectKey := "job:" ++ jsStr c.prParentJobId,
          projectName := c.pipelineName ++ ":" ++ c.jobName,
          username := "user-job-" ++ jsStr c.prParentJobId, projectScope := "job" }) ∧
    (∀ g2, jsTruthy c.prNum = true → matchPR c.jobName = some g2 →
      getProjectData c =
        { projectKey := "job:" ++ jsStr c.prParentJobId,
          projectName := c.pipelineName ++ ":" ++ jsStr g2,
          username := "user-job-" ++ jsStr c.prParentJobId, projectScope := "job" }) ∧
    (jsTruthy c.prNum = false →
      getProjectData c =
        { projectKey := "job:" ++ c.jobId, projectName := c.pipelineName ++ ":" ++ c.jobName,
          username := "user-job-" ++ c.jobId, projectScope := "job" }) := by
  refine ⟨fun hpr hm => ?_, fun g2 hpr hm => ?_, fun hpr => ?_⟩
  · simp [getProjectData, hpk, hcs, hent, hpr, hm]
  · simp [getProjectData, hpk, hcs, hent, hpr, hm]
  · simp [getProjectData, hpk, hcs, hent, hpr]

theorem pr_parent_redirection_witness :
    getProjectData
        { scope := some "job", enterpriseEnabled := true, jobId := "1",
          jobName := "PR-56:main2", pipelineId := some "123",
          pipelineName := "d2lam/mytest", projectKey := none,
          prParentJobId := some "456", prNum := some "56" } =
      { projectKey := "job:" ++ jsStr (some "456"),
        projectName := "d2lam/mytest" ++ ":" ++ jsStr (some "main2"),
        username := "user-job-" ++ jsStr (some "456"), projectScope := "job" } :=
  (pr_parent_redirection _ (by decide) (by decide) (by decide)).2.1 (some "main2")
    (by decide) (by decide)

/-- Claim C2 counterexample: an explicit scope annotation `foo` (neither
`job` nor `pipeline`) yields projectScope `foo` but projectKey `job:1`, so
the first component of the split is `job`, not the projectScope. -/
theorem scope_recoverable_cex :
    (jsSplit ':'
        (getProjectData
          { scope := some "foo", enterpriseEnabled := false, jobId := "1",
            jobName := "main", pipelineId := some "2", pipelineName := "p",
            projectKey := none, prParentJobId := none, prNum := none }).projectKey).headD "" ≠
      (getProjectData
          { scope := some "foo", enterpriseEnabled := false, jobId := "1",
            jobName := "main", pipelineId := some "2", pipelineName := "p",
            projectKey := none, prParentJobId := none, prNum := none }).projectScope := by
  decide

/-- Claim C2 (amended): the first component of splitting projectKey on `:`
equals projectScope whenever an explicit projectKey is supplied, or the
scope annotation is absent, empty, the literal `undefined`, `job`, or
`pipeline`; an explicit scope annotation with any other value breaks the
invariant (the descriptor then carries that annotation as projectScope
while the projectKey stays job-scoped). -/
theorem scope_recoverable (c : Identity)
    (h : jsTruthy c.projectKey = true ∨ c.scope = none ∨ c.scope = some "" ∨
      c.scope = some "undefined" ∨ c.scope = some "job" ∨ c.scope = some "pipeline") :
    (jsSplit ':' (getProjectData c).projectKey).headD "" =
      (getProjectData c).projectScope := by
  by_cases hpk : jsTruthy c.projectKey = true
  · simp only [getProjectData, hpk, if_true]
    exact headD_ne_nil _ _ _ (jsSplit_ne_nil _ _)
  · have hpk2 : jsTruthy c.projectKey = false := by simpa using hpk
    have hsc : coverageScope c = "job" ∨ coverageScope c = "pipeline" := by
      rcases h with h | h | h | h | h | h
      · exact absurd h hpk
      · cases he : c.enterpriseEnabled <;> simp [coverageScope, userScope, h, he]
      · cases he : c.enterpriseEnabled <;> simp [coverageScope, userScope, h, he]
      · cases he : c.enterpriseEnabled <;> simp [coverageScope, userScope, h, he]
      · left; simp [coverageScope, userScope, h]
      · right; simp [coverageScope, userScope, h]
    rcases hsc with hj | hp
    · have hnp : ¬(coverageScope c = "pipeline") := by rw [hj]; decide
      simp only [getProjectData, hpk2, Bool.false_eq_true, if_false, if_neg hnp]
      rw [jsSplit_job_head, hj]
    · simp only [getProjectData, hpk2, Bool.false_eq_true, if_false, if_pos hp]
      rw [jsSplit_pipeline_head, hp]

theorem scope_recoverable_witness :
    (jsSplit ':'
        (getProjectData
          { scope := none, enterpriseEnabled := false, jobId := "1", jobName := "main",
            pipelineId := some "2", pipelineName := "p", projectKey := none,
            prParentJobId := none, prNum := none }).projectKey).headD "" =
      (getProjectData
          { scope := none, enterpriseEnabled := false, jobId := "1", jobName := "main",
            pipelineId := some "2", pipelineName := "p", projectKey := none,
            prParentJobId := none, prNum := none }).projectScope :=
  scope_recoverable _ (Or.inr (Or.inl rfl))

/-- Caller-supplied access-token arguments whose username contains the
substring `undefined` while the projectName does not. -/
def c3args : TokenArgs :=
  { scope := none, username := some "user-job-undefined", projectKey := some "job:1",
    projectName := some "p:main", jobName := "main", pipelineName := "p", jobId := "9",
    pipelineId := some "2", prParentJobId := none }

/-- Claim C3 counterexample: the code checks only `projectName` for the
substring `undefined`.  With a username containing `undefined` (and a
clean projectName) the supplied trio is used as-is, and it differs from
what the resolver would recompute — refuting the claim that the data is
recomputed whenever any of the three contains `undefined`. -/
theorem supplied_data_check_cex :
    jsIncludes (jsStr c3args.username) ("undefined") = true ∧
    getAccessTokenProjectData false c3args =
      { username := "user-job-undefined", projectKey := "job:1", projectName := "p:main" } ∧
    getAccessTokenProjectData false c3args ≠
      { username := (getProjectData (accessTokenIdentity false c3args)).username,
        projectKey := (getProjectData (accessTokenIdentity false c3args)).projectKey,
        projectName := (getProjectData (accessTokenIdentity false c3args)).projectName } := by
  decide

/-- Claim C3 (amended): `_getAccessToken` uses the caller-supplied
username/projectKey/projectName as-is exactly when all three are present
(truthy) and the projectName — only the projectName — does not contain the
substring `undefined`; in every other case it recomputes the project data
via the resolver (forwarding the supplied projectKey and no PR number). -/
theorem supplied_data_check (ent : Bool) (a : TokenArgs) :
    ((jsTruthy a.username = true ∧ jsTruthy a.projectKey = true ∧
        jsTruthy a.projectName = true ∧
        jsIncludes (jsStr a.projectName) ("undefined") = false) →
      getAccessTokenProjectData ent a =
        { username := jsStr a.username, projectKey := jsStr a.projectKey,
          projectName := jsStr a.projectName }) ∧
    (¬(jsTruthy a.username = true ∧ jsTruthy a.projectKey = true ∧
        jsTruthy a.projectName = true ∧
        jsIncludes (jsStr a.projectName) ("undefined") = false) →
      getAccessTokenProjectData ent a =
        { username := (getProjectData (accessTokenIdentity ent a)).username,
          projectKey := (getProjectData (accessTokenIdentity ent a)).projectKey,
          projectName := (getProjectData (accessTokenIdentity ent a)).projectName }) := by
  cases hu : jsTruthy a.username <;> cases hk : jsTruthy a.projectKey <;>
    cases hn : jsTruthy a.projectName <;>
      cases hi : jsIncludes (jsStr a.projectName) ("undefined") <;>
        simp [getAccessTokenProjectData, hu, hk, hn, hi]

theorem supplied_data_check_witness :
    getAccessTokenProjectData false
        { scope := none, username := some "user-job-1", projectKey := some "job:1",
          projectName := some "p:main", jobName := "main", pipelineName := "p",
          jobId := "1", pipelineId := some "2", prParentJobId := none } =
      { username := jsStr (some "user-job-1"), projectKey := jsStr (some "job:1"),
        projectName := jsStr (some "p:main") } :=
  (supplied_data_check false _).1 ⟨by decide, by decide, by decide, by decide⟩

/-- Claim C9 counterexample: enterprise job-scope identity with a PR number
and a non-matching jobName.  The resolver of src/index.js substitutes
`jobId := prParentJobId` (because a PR number is present) while the
variant of src/unnamed/part_000 leaves the jobId unchanged (its
substitution is keyed on the regex match, which fails), so the two return
different descriptors. -/
theorem resolver_variants_cex :
    getProjectData
        { scope := some "job", enterpriseEnabled := true, jobId := "1",
          jobName := "main", pipelineId := some "123", pipelineName := "d2lam/mytest",
          projectKey := none, prParentJobId := some "456", prNum := some "56" } ≠
      getProjectDataV
        { scope := some "job", enterpriseEnabled := true, jobId := "1",
          jobName := "main", pipelineId := some "123", pipelineName := "d2lam/mytest",
          projectKey := none, prParentJobId := some "456", prNum := some "56" } := by
  decide

/-- Claim C9 (amended): the two resolvers return the same
{projectKey, projectName, username, projectScope} for every identity in
which an explicit projectKey is supplied, or the scope resolves to
pipeline, or enterprise mode is disabled, or a PR number is present
exactly when the jobName matches the PR pattern
`PR-<number>(:<originalJobName>)?`; outside this domain they can differ,
as the counterexample shows. -/
theorem resolver_variants_agree (c : Identity)
    (h : jsTruthy c.projectKey = true ∨ coverageScope c = "pipeline" ∨
      c.enterpriseEnabled = false ∨
      (jsTruthy c.prNum = true ↔ (matchPR c.jobName).isSome = true)) :
    getProjectData c = getProjectDataV c := by
  by_cases hpk : jsTruthy c.projectKey = true
  · simp [getProjectData, getProjectDataV, hpk]
  · have hpk2 : jsTruthy c.projectKey = false := by simpa using hpk
    by_cases hcp : coverageScope c = "pipeline"
    · simp [getProjectData, getProjectDataV, hpk2, hcp]
    · cases hent : c.enterpriseEnabled with
      | false => simp [getProjectData, getProjectDataV, hpk2, hcp, hent]
      | true =>
        have hiff : jsTruthy c.prNum = true ↔ (matchPR c.jobName).isSome = true := by
          rcases h with h | h | h | h
          · exact absurd h hpk
          · exact absurd h hcp
          · rw [hent] at h; exact Bool.noConfusion h
          · exact h
        by_cases hcj : coverageScope c = "job"
        · cases hm : matchPR c.jobName with
          | some g2 =>
            have hpr : jsTruthy c.prNum = true := hiff.mpr (by simp [hm])
            simp [getProjectData, getProjectDataV, hpk2, hcp, hcj, hent, hm, hpr]
          | none =>
            have hpr : jsTruthy c.prNum = false := by
              cases hv : jsTruthy c.prNum
              · rfl
              · exact absurd (hiff.mp hv) (by simp [hm])
            simp [getProjectData, getProjectDataV, hpk2, hcp, hcj, hent, hm, hpr]
        · simp [getProjectData, getProjectDataV, hpk2, hcp, hcj, hent]

theorem resolver_variants_agree_witness :
    getProjectData
        { scope := some "job", enterpriseEnabled := false, jobId := "1", jobName := "main",
          pipelineId := some "123", pipelineName := "d2lam/mytest", projectKey := none,
          prParentJobId := some "456", prNum := some "56" } =
      getProjectDataV
        { scope := some "job", enterpriseEnabled := false, jobId := "1", jobName := "main",
          pipelineId := some "123", pipelineName := "d2lam/mytest", projectKey := none,
          prParentJobId := some "456", prNum := some "56" } :=
  resolver_variants_agree _ (Or.inr (Or.inr (Or.inl rfl)))

theorem upload_cmd_structure_witness :
    mkUploadCommands (substituteCommands ("line one\nline two") ("h") ("u") false) =
      (jsSplit (Char.ofNat 10)
          (substituteCommands ("line one\nline two") ("h") ("u") false)).dropLast ++
        (((jsSplit (Char.ofNat 10)
            (substituteCommands ("line one\nline two") ("h") ("u") false)).getLast?).map
          (fun x => x ++ (" || true"))).toList ∧
    jsSplit (Char.ofNat 10) (substituteCommands ("line one\nline two") ("h") ("u") false) ≠ [] :=
  ⟨(upload_cmd_structure ("line one\nline two") ("h") ("u") false).1,
    (upload_cmd_structure ("line one\nline two") ("h") ("u") false).2.1⟩
